import Mathlib

/-
Shallow embedding of the carsim vehicle-dynamics core (src/main.py).

The pure arithmetic helpers (steering filter, torque lookup, axle loads)
are stated over an arbitrary linear ordered field so that they can be
instantiated both at rational numbers (for decidable evaluation) and at
the reals (inside the full vehicle model, which uses sin/cos/atan2/sqrt).
All numeric literals are the exact rational values of the Python source.
-/

section Helpers

variable {K : Type} [LinearOrderedField K]

/-- clamp(x, minval, maxval) from src/main.py. -/
def clamp (x minval maxval : K) : K := min maxval (max minval x)

/-- sign(x) from src/main.py: 1 for x >= 0, otherwise -1. -/
def sign (x : K) : K := if 0 ≤ x then 1 else -1

/-- apply_smooth_steer from src/main.py. -/
def apply_smooth_steer (steer steer_input dt : K) : K :=
  if steer_input ≠ 0 then clamp (steer + steer_input * dt * 2) (-1) 1
  else if 0 < steer then max (steer - dt) 0
  else if steer < 0 then min (steer + dt) 0
  else 0

/-- apply_safe_steer from src/main.py. -/
def apply_safe_steer (steer_input abs_vel : K) : K :=
  steer_input * (1 - min abs_vel 250 / 280)

/-- One tick of the steering pipeline of Car.update (src/main.py lines
265-275), with the two toggles smooth_steer / safe_steer. -/
def steer_tick (smooth safe : Bool) (steer left right dt speed : K) : K :=
  let steer_input := right - left
  let s1 := if smooth then apply_smooth_steer steer steer_input dt else steer_input
  if safe then apply_safe_steer s1 speed else s1

-- Vehicle configuration constants from Car.__init__ (exact rationals).
def gravity : K := 49 / 5
def mass : K := 900
def intertia_scale : K := 1
def half_width : K := 4 / 5
def cg_to_front_axle : K := 5 / 4
def cg_to_rear_axle : K := 5 / 4
def cg_to_height : K := 11 / 20
def wheel_radius : K := 3 / 10
def tire_grip : K := 11 / 5
def lock_grip : K := 7 / 10
def gear_ratios : List K := [423 / 100, 63 / 25, 83 / 50, 123 / 100, 1, 83 / 100]
def torque_curve : List (K × K) :=
  [(800, 200), (2000, 280), (3000, 340), (4000, 355),
   (5000, 360), (6000, 355), (7000, 340), (8000, 300)]
def diff_ratio : K := 7 / 2
def transmission_eff : K := 17 / 20
def min_rpm : K := 800
def brake_force : K := 15000
def ebrake_force : K := 6000
def weight_transfer : K := 1 / 5
def max_steer : K := 3 / 5
def corner_stiffness_front : K := 5
def corner_stiffness_rear : K := 26 / 5
def air_ressist : K := 3 / 10
def roll_ressist : K := 8
def inertia : K := mass * intertia_scale
def wheel_base : K := cg_to_front_axle + cg_to_rear_axle
def axle_weight_ratio_rear : K := cg_to_rear_axle / wheel_base
def axle_weight_ratio_front : K := cg_to_front_axle / wheel_base

/-- The loop body of Car.get_engine_torque: scan adjacent breakpoint pairs
in order, returning the linear interpolant of the first interval that
contains rpm (inclusive on both ends), and 0 when no interval matches. -/
def torqueLookup : List (K × K) → K → K
  | (r1, t1) :: (r2, t2) :: rest, rpm =>
      if r1 ≤ rpm ∧ rpm ≤ r2 then t1 + (t2 - t1) * ((rpm - r1) / (r2 - r1))
      else torqueLookup ((r2, t2) :: rest) rpm
  | _, _ => 0

/-- Car.get_engine_torque from src/main.py, on the configured curve. -/
def get_engine_torque (rpm : K) : K := torqueLookup torque_curve rpm

/-- Front axle load as computed in Car.update_physics (src/main.py lines
334-340), as a function of the vehicle-frame longitudinal acceleration. -/
def axle_weight_front (accel_cx : K) : K :=
  mass * axle_weight_ratio_front * gravity -
    weight_transfer * accel_cx * cg_to_height / wheel_base

/-- Rear axle load as computed in Car.update_physics (src/main.py lines
341-347), as a function of the vehicle-frame longitudinal acceleration. -/
def axle_weight_rear (accel_cx : K) : K :=
  mass * axle_weight_ratio_rear * gravity -
    weight_transfer * accel_cx * cg_to_height / wheel_base

end Helpers

/-- Two-argument arctangent, the mathematical function computed by
Python's math.atan2 (for non-negative-zero inputs); used for the slip
angles in Car.update_physics. -/
noncomputable def atan2 (y x : ℝ) : ℝ :=
  if 0 < x then Real.arctan (y / x)
  else if x < 0 then
    if 0 ≤ y then Real.arctan (y / x) + Real.pi else Real.arctan (y / x) - Real.pi
  else
    if 0 < y then Real.pi / 2 else if y < 0 then -(Real.pi / 2) else 0

/-- A 2D vector (pygame.Vector2). -/
structure Vec2 where
  x : ℝ
  y : ℝ

/-- The five digital driver inputs (class Inputs in src/main.py); the
Python code stores them as 0/1 integers and multiplies them into real
formulas, so they are embedded as reals. -/
structure Inputs where
  left : ℝ
  right : ℝ
  throttle : ℝ
  brake : ℝ
  ebrake : ℝ

/-- The mutable state of class Car (src/main.py); the immutable
configuration fields are the top-level constants above. -/
structure Car where
  inputs : Inputs
  heading : ℝ
  position : Vec2
  velocity : Vec2
  velocity_c : Vec2
  accel : Vec2
  accel_c : Vec2
  abs_vel : ℝ
  yaw_rate : ℝ
  steer : ℝ
  steer_angle : ℝ
  smooth_steer : Bool
  safe_steer : Bool
  current_gear_index : ℕ
  rpm : ℝ
  engine_torque : ℝ
  last_tire_index : ℕ
  tire_tracks : List (Option Vec2)

/-- Capacity of the tire-track ring buffer (Car.max_tire_length). -/
def max_tire_length : ℕ := 100000

/-- Car.add_front_tire_tracks: record the two front contact patches
(front-axle offsets rotated by the heading, pygame Vector2.rotate_rad)
at the write cursor, advancing it by one modulo capacity after each of
the two writes. -/
noncomputable def add_front_tire_tracks (c : Car) : Car :=
  let tire1 : Vec2 :=
    ⟨c.position.x + (cg_to_front_axle * Real.cos c.heading -
        (-(half_width) / 2) * Real.sin c.heading),
     c.position.y + (cg_to_front_axle * Real.sin c.heading +
        (-(half_width) / 2) * Real.cos c.heading)⟩
  let tire2 : Vec2 :=
    ⟨c.position.x + (cg_to_front_axle * Real.cos c.heading -
        (half_width / 2) * Real.sin c.heading),
     c.position.y + (cg_to_front_axle * Real.sin c.heading +
        (half_width / 2) * Real.cos c.heading)⟩
  let tracks1 := c.tire_tracks.set c.last_tire_index (some tire1)
  let idx1 := (c.last_tire_index + 1) % max_tire_length
  let tracks2 := tracks1.set idx1 (some tire2)
  let idx2 := (idx1 + 1) % max_tire_length
  { c with tire_tracks := tracks2, last_tire_index := idx2 }

/-- Car.add_rear_tire_tracks: same as the front recorder, at the
rear-axle offsets. -/
noncomputable def add_rear_tire_tracks (c : Car) : Car :=
  let tire3 : Vec2 :=
    ⟨c.position.x + (-(cg_to_rear_axle) * Real.cos c.heading -
        (-(half_width) / 2) * Real.sin c.heading),
     c.position.y + (-(cg_to_rear_axle) * Real.sin c.heading +
        (-(half_width) / 2) * Real.cos c.heading)⟩
  let tire4 : Vec2 :=
    ⟨c.position.x + (-(cg_to_rear_axle) * Real.cos c.heading -
        (half_width / 2) * Real.sin c.heading),
     c.position.y + (-(cg_to_rear_axle) * Real.sin c.heading +
        (half_width / 2) * Real.cos c.heading)⟩
  let tracks1 := c.tire_tracks.set c.last_tire_index (some tire3)
  let idx1 := (c.last_tire_index + 1) % max_tire_length
  let tracks2 := tracks1.set idx1 (some tire4)
  let idx2 := (idx1 + 1) % max_tire_length
  { c with tire_tracks := tracks2, last_tire_index := idx2 }

/-- Car.update_physics from src/main.py, translated statement by
statement.  The Python code mutates fields sequentially; here each
mutated value is a let binding and the final state is assembled at the
end.  Note the weight-transfer terms read the previous tick's accel_c.x
(it is overwritten only later in the same method), the low-speed check
reads the freshly recomputed speed, and rpm feedback uses the
vehicle-frame longitudinal velocity computed at the top of the tick. -/
noncomputable def Car.update_physics (c : Car) (dt : ℝ) : Car :=
  let sn := Real.sin c.heading
  let cs := Real.cos c.heading
  let vcx := cs * c.velocity.x + sn * c.velocity.y
  let vcy := cs * c.velocity.y - sn * c.velocity.x
  let awf := axle_weight_front c.accel_c.x
  let awr := axle_weight_rear c.accel_c.x
  let yaw_speed_front := cg_to_front_axle * c.yaw_rate
  let yaw_speed_rear := -(cg_to_rear_axle) * c.yaw_rate
  let slip_angle_front :=
    atan2 (vcy + yaw_speed_front) |vcx| - sign vcx * c.steer_angle
  let slip_angle_rear := atan2 (vcy + yaw_speed_rear) |vcx|
  let tire_grip_front := (tire_grip : ℝ)
  let tire_grip_rear := tire_grip * (1 - c.inputs.ebrake * (1 - lock_grip))
  let friction_force_front_cy :=
    clamp (-(corner_stiffness_front) * slip_angle_front)
      (-tire_grip_front) tire_grip_front * awf
  let friction_force_rear_cy :=
    clamp (-(corner_stiffness_rear) * slip_angle_rear)
      (-tire_grip_rear) tire_grip_rear * awr
  let brake :=
    min (c.inputs.brake * brake_force + c.inputs.ebrake * ebrake_force) brake_force
  let engine_torque := get_engine_torque c.rpm
  let gear_ratio := gear_ratios.getD c.current_gear_index 0
  let drive_force :=
    engine_torque * gear_ratio * diff_ratio * transmission_eff / wheel_radius
  let throttle := c.inputs.throttle * drive_force
  let traction_force_cx := throttle - brake * sign vcx
  let traction_force_cy := (0 : ℝ)
  let drag_force_cx := -(roll_ressist) * vcx - air_ressist * vcx * |vcx|
  let drag_force_cy := -(roll_ressist) * vcy - air_ressist * vcy * |vcy|
  let total_force_cx := drag_force_cx + traction_force_cx
  let total_force_cy := drag_force_cy + traction_force_cy +
    Real.cos c.steer_angle * friction_force_front_cy + friction_force_rear_cy
  let acx := total_force_cx / mass
  let acy := total_force_cy / mass
  let ax := cs * acx - sn * acy
  let ay := sn * acx + cs * acy
  let vx := c.velocity.x + ax * dt
  let vy := c.velocity.y + ay * dt
  let av0 := Real.sqrt (vx ^ 2 + vy ^ 2)
  let angular_torque0 := (friction_force_front_cy + traction_force_cy) *
    cg_to_front_axle - friction_force_rear_cy * cg_to_rear_axle
  let snap := |av0| < 1 / 2 ∧ throttle = 0
  let vx1 := if snap then 0 else vx
  let vy1 := if snap then 0 else vy
  let av1 := if snap then 0 else av0
  let angular_torque1 := if snap then 0 else angular_torque0
  let yaw0 := if snap then 0 else c.yaw_rate
  let angular_accel := angular_torque1 / inertia
  let yaw_rate1 := yaw0 + angular_accel * dt
  let heading1 := c.heading + yaw_rate1 * dt
  let px := c.position.x + vx1 * dt
  let py := c.position.y + vy1 * dt
  let wheel_speed := vcx
  let rpm1 := max
    (|wheel_speed| * gear_ratio * diff_ratio * 60 / (2 * Real.pi * wheel_radius))
    800
  let slip_r := (wheel_speed - av1) / max av1 (1 / 10)
  let c1 : Car :=
    { c with
        velocity_c := ⟨vcx, vcy⟩
        accel_c := ⟨acx, acy⟩
        accel := ⟨ax, ay⟩
        velocity := ⟨vx1, vy1⟩
        abs_vel := av1
        yaw_rate := yaw_rate1
        heading := heading1
        position := ⟨px, py⟩
        rpm := rpm1
        engine_torque := engine_torque }
  let c2 := if |slip_r| > 1 / 100 ∨ |slip_angle_rear| > 1 / 2 then
    add_rear_tire_tracks c1 else c1
  if |slip_angle_front| > 1 / 2 then add_front_tire_tracks c2 else c2

/-- Car.update from src/main.py (steering pipeline then physics); the
keyboard polling and camera smoothing around it belong to the excluded
rendering/input collaborator, so the inputs arrive as an argument. -/
noncomputable def Car.update (c : Car) (inp : Inputs) (dt : ℝ) : Car :=
  let steer_input := inp.right - inp.left
  let s1 := if c.smooth_steer then apply_smooth_steer c.steer steer_input dt
    else steer_input
  let s2 := if c.safe_steer then apply_safe_steer s1 c.abs_vel else s1
  Car.update_physics
    { c with inputs := inp, steer := s2, steer_angle := max_steer * s2 } dt

/-- The all-zero input vector (Inputs.__init__). -/
def Inputs.zero : Inputs := ⟨0, 0, 0, 0, 0⟩

/-- The initial vehicle state built by Car.__init__. -/
noncomputable def Car.init : Car :=
  { inputs := Inputs.zero
    heading := 0
    position := ⟨10, 10⟩
    velocity := ⟨0, 0⟩
    velocity_c := ⟨0, 0⟩
    accel := ⟨0, 0⟩
    accel_c := ⟨0, 0⟩
    abs_vel := 0
    yaw_rate := 0
    steer := 0
    steer_angle := 0
    smooth_steer := true
    safe_steer := true
    current_gear_index := 0
    rpm := 800
    engine_torque := 0
    last_tire_index := 0
    tire_tracks := List.replicate max_tire_length none }

/-- Advancing the simulation over a list of tick durations with a fixed
input vector (repeated calls to Car.update). -/
noncomputable def Car.advance (c : Car) (inp : Inputs) : List ℝ → Car
  | [] => c
  | dt :: rest => Car.advance (c.update inp dt) inp rest

/-- Above the last breakpoint of the configured curve the scan finds no
containing interval and falls through to the out-of-range result 0. -/
lemma torque_above_top (rpm : ℚ) (h : 8000 < rpm) : get_engine_torque rpm = 0 := by
  simp only [get_engine_torque, torque_curve, torqueLookup]
  repeat rw [if_neg (by rintro ⟨-, hb⟩; linarith)]

/-- The clamp branch of the smoothing filter always lands in [-1, 1],
and with a non-negative dt the decay branches never grow the value. -/
lemma apply_smooth_steer_bound (steer input dt : ℚ)
    (hs : |steer| ≤ 1) (hdt : 0 ≤ dt) :
    |apply_smooth_steer steer input dt| ≤ 1 := by
  unfold apply_smooth_steer clamp
  split_ifs with h1 h2 h3
  · rw [abs_le]
    exact ⟨le_min (by norm_num) (le_max_left _ _), min_le_left _ _⟩
  · rw [abs_le]
    constructor
    · have := le_max_right (steer - dt) (0 : ℚ); linarith
    · have hs1 := (abs_le.mp hs).2
      exact max_le (by linarith) (by norm_num)
  · rw [abs_le]
    constructor
    · have hs1 := (abs_le.mp hs).1
      exact le_min (by linarith) (by norm_num)
    · have := min_le_right (steer + dt) (0 : ℚ); linarith
  · simp

/-- The speed scaling of apply_safe_steer multiplies by a factor in
[30/280, 1] whenever the speed is non-negative, so it never grows the
magnitude. -/
lemma apply_safe_steer_abs_le (s v : ℚ) (hv : 0 ≤ v) (hs : |s| ≤ 1) :
    |apply_safe_steer s v| ≤ 1 := by
  have h0 : 0 ≤ min v 250 := le_min hv (by norm_num)
  have h1 : min v 250 ≤ 250 := min_le_right _ _
  have hf0 : (0 : ℚ) ≤ 1 - min v 250 / 280 := by linarith
  have hf1 : 1 - min v 250 / 280 ≤ 1 := by linarith
  rw [apply_safe_steer, abs_mul, abs_of_nonneg hf0]
  calc |s| * (1 - min v 250 / 280) ≤ 1 * 1 :=
        mul_le_mul hs hf1 hf0 (by norm_num)
    _ = 1 := by norm_num

/-- One steering tick keeps the steer value in [-1, 1], for every toggle
combination, given 0/1 digital inputs, dt ≥ 0 and speed ≥ 0. -/
lemma steer_tick_bound (smooth safe : Bool) (steer left right dt speed : ℚ)
    (hs : |steer| ≤ 1) (hl : left = 0 ∨ left = 1) (hr : right = 0 ∨ right = 1)
    (hdt : 0 ≤ dt) (hsp : 0 ≤ speed) :
    |steer_tick smooth safe steer left right dt speed| ≤ 1 := by
  have haxis : |right - left| ≤ 1 := by
    rcases hl with h | h <;> rcases hr with h' | h' <;> rw [h, h'] <;> norm_num
  unfold steer_tick
  have h1 : |(if smooth then apply_smooth_steer steer (right - left) dt
      else right - left)| ≤ 1 := by
    cases smooth
    · simpa using haxis
    · simpa using apply_smooth_steer_bound steer (right - left) dt hs hdt
  cases safe
  · simpa using h1
  · simpa using apply_safe_steer_abs_le _ speed hsp h1

/-- Folding any admissible tick sequence from a bounded steer value keeps
the steer value bounded. -/
lemma steer_fold_bound (smooth safe : Bool) (ticks : List (ℚ × ℚ × ℚ × ℚ)) :
    ∀ s : ℚ, |s| ≤ 1 →
    (∀ t ∈ ticks, (t.1 = 0 ∨ t.1 = 1) ∧ (t.2.1 = 0 ∨ t.2.1 = 1) ∧
      0 ≤ t.2.2.1 ∧ 0 ≤ t.2.2.2) →
    |ticks.foldl
      (fun s t => steer_tick smooth safe s t.1 t.2.1 t.2.2.1 t.2.2.2) s| ≤ 1 := by
  induction ticks with
  | nil => intro s hs _; simpa using hs
  | cons t rest ih =>
    intro s hs h
    obtain ⟨h1, h2, h3, h4⟩ := h t (by simp)
    simp only [List.foldl_cons]
    exact ih _ (steer_tick_bound smooth safe s t.1 t.2.1 t.2.2.1 t.2.2.2
      hs h1 h2 h3 h4) (fun t' ht' => h t' (by simp [ht']))

/-- Claim C1, evaluation of the code at the failing input: in
Car.update_physics the longitudinal-acceleration correction term is
subtracted from BOTH axle loads, so under forward acceleration
(accel_c.x = 1 versus 0) the rear axle load decreases instead of
increasing, while the front axle load decreases as claimed. -/
theorem axle_weight_rear_decreases_under_forward_accel :
    axle_weight_rear (1 : ℚ) < axle_weight_rear 0 ∧
    axle_weight_front (1 : ℚ) < axle_weight_front 0 ∧
    axle_weight_rear (1 : ℚ) = 4410 - 11 / 250 ∧
    axle_weight_rear (0 : ℚ) = 4410 := by
  norm_num [axle_weight_rear, axle_weight_front, mass, axle_weight_ratio_rear,
    axle_weight_ratio_front, gravity, weight_transfer, cg_to_height,
    wheel_base, cg_to_front_axle, cg_to_rear_axle]

/-- Claim C2, counterexample: querying the torque lookup at exactly the
highest breakpoint speed 8000 returns that breakpoint's torque 300, not
0 — the interval test of get_engine_torque is inclusive on both ends. -/
theorem torque_at_top_breakpoint_is_300 :
    get_engine_torque (8000 : ℚ) = 300 ∧ get_engine_torque (8000 : ℚ) ≠ 0 := by
  norm_num [get_engine_torque, torqueLookup, torque_curve]

/-- Claim C2 as amended: the torque lookup returns 0 for every
engine-speed query strictly above the highest breakpoint speed 8000,
while at exactly 8000 it returns the breakpoint torque 300. -/
theorem torque_zero_strictly_above_top :
    (∀ rpm : ℚ, 8000 < rpm → get_engine_torque rpm = 0) ∧
    get_engine_torque (8000 : ℚ) = 300 :=
  ⟨torque_above_top, by norm_num [get_engine_torque, torqueLookup, torque_curve]⟩

/-- Claim C2 witness: the amended statement evaluated at rpm 8001. -/
theorem torque_zero_strictly_above_top_witness :
    get_engine_torque (8001 : ℚ) = 0 :=
  torque_zero_strictly_above_top.1 8001 (by norm_num)

/-- Claim C3: every breakpoint of the configured torque curve is
reproduced exactly by the lookup; every query strictly above the highest
breakpoint returns 0; and every query strictly between two adjacent
breakpoints returns the linear interpolant of their torques. -/
theorem torque_curve_exactness :
    (∀ p ∈ (torque_curve : List (ℚ × ℚ)), get_engine_torque p.1 = p.2) ∧
    (∀ rpm : ℚ, 8000 < rpm → get_engine_torque rpm = 0) ∧
    (∀ i : Fin 7, ∀ rpm : ℚ,
      ((torque_curve : List (ℚ × ℚ)).getD i.val (0, 0)).1 < rpm →
      rpm < ((torque_curve : List (ℚ × ℚ)).getD (i.val + 1) (0, 0)).1 →
      get_engine_torque rpm =
        ((torque_curve : List (ℚ × ℚ)).getD i.val (0, 0)).2 +
        (((torque_curve : List (ℚ × ℚ)).getD (i.val + 1) (0, 0)).2 -
          ((torque_curve : List (ℚ × ℚ)).getD i.val (0, 0)).2) *
        ((rpm - ((torque_curve : List (ℚ × ℚ)).getD i.val (0, 0)).1) /
         (((torque_curve : List (ℚ × ℚ)).getD (i.val + 1) (0, 0)).1 -
          ((torque_curve : List (ℚ × ℚ)).getD i.val (0, 0)).1))) := by
  refine ⟨?_, torque_above_top, ?_⟩
  · intro p hp
    fin_cases hp <;> norm_num [get_engine_torque, torqueLookup, torque_curve]
  · intro i rpm
    fin_cases i <;>
      · simp only [torque_curve, List.getD, List.get?, Option.getD_some, Fin.isValue]
        intro h1 h2
        simp only [get_engine_torque, torque_curve, torqueLookup]
        repeat rw [if_neg (by rintro ⟨-, hb⟩; linarith)]
        rw [if_pos ⟨by linarith, by linarith⟩]

/-- Claim C3 witness: exactness at the breakpoint (800, 200), zero above
the top, and the interpolant between the first two breakpoints at 900. -/
theorem torque_curve_exactness_witness :
    get_engine_torque (800 : ℚ) = 200 ∧
    get_engine_torque (9000 : ℚ) = 0 ∧
    get_engine_torque (900 : ℚ) =
      200 + (280 - 200) * ((900 - 800) / (2000 - 800)) := by
  refine ⟨torque_curve_exactness.1 (800, 200) (by norm_num [torque_curve]),
    torque_curve_exactness.2.1 9000 (by norm_num), ?_⟩
  have h := torque_curve_exactness.2.2 ⟨0, by norm_num⟩ 900
    (by norm_num [torque_curve]) (by norm_num [torque_curve])
  simpa [torque_curve] using h

/-- Claim C5: starting from steer value 0, for every sequence of digital
steer inputs (left/right in 0/1), tick durations dt ≥ 0 and speeds ≥ 0,
and every combination of the smoothing and safe-steer toggles, the steer
value after the tick sequence lies in [-1, 1] (every prefix of a
sequence is itself a sequence, so the bound holds after every tick). -/
theorem steer_value_bounded (smooth safe : Bool)
    (ticks : List (ℚ × ℚ × ℚ × ℚ))
    (h : ∀ t ∈ ticks, (t.1 = 0 ∨ t.1 = 1) ∧ (t.2.1 = 0 ∨ t.2.1 = 1) ∧
      0 ≤ t.2.2.1 ∧ 0 ≤ t.2.2.2) :
    |ticks.foldl
      (fun s t => steer_tick smooth safe s t.1 t.2.1 t.2.2.1 t.2.2.2) 0| ≤ 1 :=
  steer_fold_bound smooth safe ticks 0 (by norm_num) h

/-- Claim C5 witness: a concrete two-tick sequence (steer right at rest,
then both keys held at speed 300) with both toggles on. -/
theorem steer_value_bounded_witness :
    |List.foldl
      (fun s t => steer_tick true true s t.1 t.2.1 t.2.2.1 t.2.2.2) 0
      [((0 : ℚ), (1 : ℚ), (1 / 60 : ℚ), (0 : ℚ)), (1, 1, 1 / 60, 300)]| ≤ 1 :=
  steer_value_bounded true true _ (by norm_num)

/-- With the raw steer axis zero, one application of the smoothing filter
shrinks the magnitude of the steer value by exactly dt, clamped at 0. -/
lemma smooth_steer_decay_eq (steer dt : ℚ) (h : 0 ≤ dt) :
    |apply_smooth_steer steer 0 dt| = max (|steer| - dt) 0 := by
  unfold apply_smooth_steer
  rw [if_neg (by simp)]
  rcases lt_trichotomy steer 0 with hs | hs | hs
  · rw [if_neg (by linarith), if_pos hs, abs_of_neg hs]
    rcases le_total (steer + dt) 0 with h2 | h2
    · rw [min_eq_left h2, abs_of_nonpos h2, max_eq_left (by linarith)]
      ring
    · rw [min_eq_right h2, abs_zero, max_eq_right (by linarith)]
  · subst hs
    rw [if_neg (lt_irrefl 0), if_neg (lt_irrefl 0)]
    rw [abs_zero, max_eq_right (by linarith)]
  · rw [if_pos hs, abs_of_nonneg (le_max_right _ _), abs_of_pos hs]

/-- Claim C6: with smoothing enabled and the raw steer axis back at zero
(left = right = 0), each tick shrinks the magnitude of the steer value by
exactly dt, clamped so it never overshoots past zero — stated both for
the smoothing filter itself and for the whole steering tick in the
smoothing-enabled configuration (safe-steer off, since its speed scaling
would further rescale the stored value). -/
theorem smooth_steer_decay (steer dt speed : ℚ) (h : 0 ≤ dt) :
    |apply_smooth_steer steer 0 dt| = max (|steer| - dt) 0 ∧
    |steer_tick true false steer 0 0 dt speed| = max (|steer| - dt) 0 := by
  have heq : steer_tick true false steer 0 0 dt speed =
      apply_smooth_steer steer 0 dt := by
    simp [steer_tick]
  exact ⟨smooth_steer_decay_eq steer dt h,
    by rw [heq]; exact smooth_steer_decay_eq steer dt h⟩

/-- Claim C6 witness: decay of steer value 1/2 by dt = 1/3, and the
clamped decay of 1/4 by dt = 2 (stopping at zero, not overshooting). -/
theorem smooth_steer_decay_witness :
    |apply_smooth_steer (1 / 2 : ℚ) 0 (1 / 3)| = max (|(1 / 2 : ℚ)| - 1 / 3) 0 ∧
    |steer_tick true false (1 / 4 : ℚ) 0 0 2 7| = max (|(1 / 4 : ℚ)| - 2) 0 :=
  ⟨(smooth_steer_decay (1 / 2) (1 / 3) 0 (by norm_num)).1,
   (smooth_steer_decay (1 / 4) 2 7 (by norm_num)).2⟩

/-- Claim C7: for a fixed steer value the safe-steer output is
monotonically non-increasing in magnitude as speed grows from 0; at and
above speed 250 the scale factor is exactly 1 - 250/280; and the scale
factor (the output at steer value 1) is never negative. -/
theorem safe_steer_monotone (steer : ℚ) :
    (∀ v1 v2 : ℚ, 0 ≤ v1 → v1 ≤ v2 →
      |apply_safe_steer steer v2| ≤ |apply_safe_steer steer v1|) ∧
    (∀ v : ℚ, 250 ≤ v → apply_safe_steer steer v = steer * (1 - 250 / 280)) ∧
    (∀ v : ℚ, 0 ≤ apply_safe_steer 1 v) := by
  refine ⟨?_, ?_, ?_⟩
  · intro v1 v2 h0 h12
    have hm : min v1 250 ≤ min v2 250 := min_le_min h12 le_rfl
    have hb2 : min v2 250 ≤ 250 := min_le_right _ _
    have hf2 : (0 : ℚ) ≤ 1 - min v2 250 / 280 := by linarith
    have hf1 : (0 : ℚ) ≤ 1 - min v1 250 / 280 := by linarith
    rw [apply_safe_steer, apply_safe_steer, abs_mul, abs_mul,
      abs_of_nonneg hf2, abs_of_nonneg hf1]
    exact mul_le_mul_of_nonneg_left (by linarith) (abs_nonneg steer)
  · intro v hv
    rw [apply_safe_steer, min_eq_right hv]
  · intro v
    have := min_le_right v (250 : ℚ)
    rw [apply_safe_steer, one_mul]
    linarith

/-- Claim C7 witness: the monotone bound between speeds 0 and 300 and the
fixed factor at speed 300, for steer value 1/2. -/
theorem safe_steer_monotone_witness :
    |apply_safe_steer (1 / 2 : ℚ) 300| ≤ |apply_safe_steer (1 / 2 : ℚ) 0| ∧
    apply_safe_steer (1 / 2 : ℚ) 300 = (1 / 2) * (1 - 250 / 280) ∧
    0 ≤ apply_safe_steer (1 : ℚ) 300 :=
  ⟨(safe_steer_monotone (1 / 2)).1 0 300 (by norm_num) (by norm_num),
   (safe_steer_monotone (1 / 2)).2.1 300 (by norm_num),
   (safe_steer_monotone (1 / 2)).2.2 300⟩

-- The tire-track recorders touch only the buffer and its cursor.

@[simp] lemma add_front_tire_tracks_velocity (c : Car) :
    (add_front_tire_tracks c).velocity = c.velocity := rfl

@[simp] lemma add_front_tire_tracks_abs_vel (c : Car) :
    (add_front_tire_tracks c).abs_vel = c.abs_vel := rfl

@[simp] lemma add_front_tire_tracks_yaw_rate (c : Car) :
    (add_front_tire_tracks c).yaw_rate = c.yaw_rate := rfl

@[simp] lemma add_front_tire_tracks_heading (c : Car) :
    (add_front_tire_tracks c).heading = c.heading := rfl

@[simp] lemma add_front_tire_tracks_position (c : Car) :
    (add_front_tire_tracks c).position = c.position := rfl

@[simp] lemma add_front_tire_tracks_steer (c : Car) :
    (add_front_tire_tracks c).steer = c.steer := rfl

@[simp] lemma add_rear_tire_tracks_velocity (c : Car) :
    (add_rear_tire_tracks c).velocity = c.velocity := rfl

@[simp] lemma add_rear_tire_tracks_abs_vel (c : Car) :
    (add_rear_tire_tracks c).abs_vel = c.abs_vel := rfl

@[simp] lemma add_rear_tire_tracks_yaw_rate (c : Car) :
    (add_rear_tire_tracks c).yaw_rate = c.yaw_rate := rfl

@[simp] lemma add_rear_tire_tracks_heading (c : Car) :
    (add_rear_tire_tracks c).heading = c.heading := rfl

@[simp] lemma add_rear_tire_tracks_position (c : Car) :
    (add_rear_tire_tracks c).position = c.position := rfl

@[simp] lemma add_rear_tire_tracks_steer (c : Car) :
    (add_rear_tire_tracks c).steer = c.steer := rfl

@[simp] lemma ite_car_velocity (P : Prop) [Decidable P] (a b : Car) :
    (if P then a else b).velocity = if P then a.velocity else b.velocity :=
  apply_ite _ _ _ _

@[simp] lemma ite_car_abs_vel (P : Prop) [Decidable P] (a b : Car) :
    (if P then a else b).abs_vel = if P then a.abs_vel else b.abs_vel :=
  apply_ite _ _ _ _

@[simp] lemma ite_car_yaw_rate (P : Prop) [Decidable P] (a b : Car) :
    (if P then a else b).yaw_rate = if P then a.yaw_rate else b.yaw_rate :=
  apply_ite _ _ _ _

@[simp] lemma ite_car_heading (P : Prop) [Decidable P] (a b : Car) :
    (if P then a else b).heading = if P then a.heading else b.heading :=
  apply_ite _ _ _ _

@[simp] lemma ite_car_position (P : Prop) [Decidable P] (a b : Car) :
    (if P then a else b).position = if P then a.position else b.position :=
  apply_ite _ _ _ _

@[simp] lemma ite_car_steer (P : Prop) [Decidable P] (a b : Car) :
    (if P then a else b).steer = if P then a.steer else b.steer :=
  apply_ite _ _ _ _

/-- Claim C4: in any tick with zero throttle input whose recomputed speed
is below 0.5, the post-tick velocity (both components), speed and yaw
rate are exactly 0 and the heading is unchanged (the yaw torque is
zeroed, so no yaw is integrated), regardless of the pre-tick values.
With zero throttle the low-speed branch fires exactly when the post-tick
abs_vel is below 0.5, so the trigger is stated on the post-tick speed. -/
theorem low_speed_snap (c : Car) (dt : ℝ)
    (hthrottle : c.inputs.throttle = 0)
    (hslow : (c.update_physics dt).abs_vel < 1 / 2) :
    (c.update_physics dt).velocity = ⟨0, 0⟩ ∧
    (c.update_physics dt).abs_vel = 0 ∧
    (c.update_physics dt).yaw_rate = 0 ∧
    (c.update_physics dt).heading = c.heading := by
  unfold Car.update_physics at hslow ⊢
  simp only [hthrottle, zero_mul, eq_self_iff_true, and_true, ite_car_velocity,
    ite_car_abs_vel, ite_car_yaw_rate, ite_car_heading,
    add_front_tire_tracks_velocity, add_front_tire_tracks_abs_vel,
    add_front_tire_tracks_yaw_rate, add_front_tire_tracks_heading,
    add_rear_tire_tracks_velocity, add_rear_tire_tracks_abs_vel,
    add_rear_tire_tracks_yaw_rate, add_rear_tire_tracks_heading,
    ite_self] at hslow ⊢
  split_ifs at hslow ⊢ with hsnap
  · refine ⟨rfl, rfl, ?_, ?_⟩ <;> simp
  · exact absurd hslow
      (by rwa [abs_of_nonneg (Real.sqrt_nonneg _)] at hsnap)

/-- Claim C4 witness: from a state at rest but with nonzero pre-tick yaw
rate 5 and zero throttle, one tick with dt = 0 leaves velocity at zero
and snaps the yaw rate to exactly 0. -/
theorem low_speed_snap_witness :
    (({ Car.init with yaw_rate := 5 } : Car).update_physics 0).velocity = ⟨0, 0⟩ ∧
    (({ Car.init with yaw_rate := 5 } : Car).update_physics 0).abs_vel = 0 ∧
    (({ Car.init with yaw_rate := 5 } : Car).update_physics 0).yaw_rate = 0 ∧
    (({ Car.init with yaw_rate := 5 } : Car).update_physics 0).heading =
      ({ Car.init with yaw_rate := 5 } : Car).heading := by
  have h1 : ({ Car.init with yaw_rate := 5 } : Car).inputs.throttle = 0 := rfl
  have h2 : (({ Car.init with yaw_rate := 5 } : Car).update_physics 0).abs_vel
      < 1 / 2 := by
    have h0 : (({ Car.init with yaw_rate := 5 } : Car).update_physics 0).abs_vel
        = 0 := by
      unfold Car.update_physics
      norm_num [Car.init, Inputs.zero, Real.sqrt_zero]
    rw [h0]; norm_num
  exact low_speed_snap _ 0 h1 h2

/-- One full tick with all inputs zero from a state with zero velocity,
zero yaw rate and zero steer: all forces, slip angles and torques vanish,
so velocity, yaw rate and steer stay zero and the position is unmoved. -/
lemma rest_tick (c : Car) (dt : ℝ)
    (hv : c.velocity = ⟨0, 0⟩) (hy : c.yaw_rate = 0) (hs : c.steer = 0) :
    (c.update Inputs.zero dt).velocity = ⟨0, 0⟩ ∧
    (c.update Inputs.zero dt).yaw_rate = 0 ∧
    (c.update Inputs.zero dt).steer = 0 ∧
    (c.update Inputs.zero dt).position = c.position := by
  unfold Car.update Car.update_physics
  norm_num [hv, hy, hs, Inputs.zero, apply_smooth_steer, apply_safe_steer,
    clamp, sign, atan2, tire_grip, lock_grip, corner_stiffness_front,
    corner_stiffness_rear, brake_force, ebrake_force, max_steer,
    Real.sqrt_zero]

/-- Claim C8: starting from a state with velocity exactly zero, zero yaw
rate and zero steer, advancing any number of ticks with all five inputs
zero (and any dt ≥ 0) keeps velocity and yaw rate exactly zero and
leaves the position unchanged. -/
theorem rest_invariant (dts : List ℝ) :
    ∀ c : Car, (∀ d ∈ dts, 0 ≤ d) →
    c.velocity = ⟨0, 0⟩ → c.yaw_rate = 0 → c.steer = 0 →
    (c.advance Inputs.zero dts).velocity = ⟨0, 0⟩ ∧
    (c.advance Inputs.zero dts).yaw_rate = 0 ∧
    (c.advance Inputs.zero dts).position = c.position := by
  induction dts with
  | nil => intro c _ hv hy _; exact ⟨hv, hy, rfl⟩
  | cons d rest ih =>
    intro c hd hv hy hs
    obtain ⟨hv', hy', hs', hp'⟩ := rest_tick c d hv hy hs
    simp only [Car.advance]
    obtain ⟨a, b, p⟩ := ih (c.update Inputs.zero d)
      (fun x hx => hd x (by simp [hx])) hv' hy' hs'
    exact ⟨a, b, by rw [p, hp']⟩

/-- Claim C8 witness: the freshly constructed car advanced two ticks of
1/60 s and 1/30 s with all inputs zero stays at rest at its initial
position. -/
theorem rest_invariant_witness :
    (Car.init.advance Inputs.zero [1 / 60, 1 / 30]).velocity = ⟨0, 0⟩ ∧
    (Car.init.advance Inputs.zero [1 / 60, 1 / 30]).yaw_rate = 0 ∧
    (Car.init.advance Inputs.zero [1 / 60, 1 / 30]).position =
      Car.init.position :=
  rest_invariant [1 / 60, 1 / 30] Car.init
    (by intro d hd; simp only [List.mem_cons, List.mem_singleton] at hd
        rcases hd with h | h | h <;> first | (rw [h]; norm_num) | cases h)
    rfl rfl rfl

/-- The common buffer mutation of the two tire-track recorders: write at
the cursor, advance modulo capacity, write again, advance again.  The
slot count is unchanged, the cursor lands on (i + 2) mod capacity and
stays in range, the two written slots are occupied, and every other slot
is untouched. -/
lemma ring_write (l : List (Option Vec2)) (i : ℕ) (p q : Vec2)
    (hl : l.length = max_tire_length) (hi : i < max_tire_length) :
    ((l.set i (some p)).set ((i + 1) % max_tire_length) (some q)).length =
      max_tire_length ∧
    ((i + 1) % max_tire_length + 1) % max_tire_length =
      (i + 2) % max_tire_length ∧
    ((i + 1) % max_tire_length + 1) % max_tire_length < max_tire_length ∧
    (((l.set i (some p)).set ((i + 1) % max_tire_length) (some q))[i]?).isSome ∧
    (((l.set i (some p)).set ((i + 1) % max_tire_length)
        (some q))[(i + 1) % max_tire_length]?).isSome ∧
    (∀ j : ℕ, j ≠ i → j ≠ (i + 1) % max_tire_length →
      ((l.set i (some p)).set ((i + 1) % max_tire_length) (some q))[j]? =
        l[j]?) := by
  have hL : max_tire_length = 100000 := rfl
  have hi' : i < 100000 := by rw [hL] at hi; exact hi
  have hne : (i + 1) % max_tire_length ≠ i := by rw [hL]; omega
  have hi1 : (i + 1) % max_tire_length < max_tire_length :=
    Nat.mod_lt _ (by rw [hL]; omega)
  refine ⟨by simp [List.length_set, hl], Nat.mod_add_mod _ _ _,
    by rw [Nat.mod_add_mod]; exact Nat.mod_lt _ (by rw [hL]; omega), ?_, ?_, ?_⟩
  · rw [List.getElem?_set_ne hne, List.getElem?_set_self (by rw [hl]; exact hi)]
    rfl
  · rw [List.getElem?_set_self (by rw [List.length_set, hl]; exact hi1)]
    rfl
  · intro j hj1 hj2
    rw [List.getElem?_set_ne (fun h => hj2 h.symm),
      List.getElem?_set_ne (fun h => hj1 h.symm)]

/-- Claim C9: the tire-track buffer is allocated once with capacity
100000; each recording (front or rear) writes exactly two points at the
cursor and the following slot, advances the cursor by two modulo
capacity (so it always stays in [0, capacity)), keeps the slot count at
capacity, and leaves every other slot untouched — hence, once full, each
recording overwrites exactly the two oldest slots in FIFO order. -/
theorem tire_track_ring_buffer :
    Car.init.tire_tracks.length = max_tire_length ∧
    (∀ c : Car, c.tire_tracks.length = max_tire_length →
      c.last_tire_index < max_tire_length →
      ((add_front_tire_tracks c).tire_tracks.length = max_tire_length ∧
        (add_front_tire_tracks c).last_tire_index =
          (c.last_tire_index + 2) % max_tire_length ∧
        (add_front_tire_tracks c).last_tire_index < max_tire_length ∧
        ((add_front_tire_tracks c).tire_tracks[c.last_tire_index]?).isSome ∧
        ((add_front_tire_tracks c).tire_tracks[(c.last_tire_index + 1) %
            max_tire_length]?).isSome ∧
        (∀ j : ℕ, j ≠ c.last_tire_index →
          j ≠ (c.last_tire_index + 1) % max_tire_length →
          (add_front_tire_tracks c).tire_tracks[j]? = c.tire_tracks[j]?)) ∧
      ((add_rear_tire_tracks c).tire_tracks.length = max_tire_length ∧
        (add_rear_tire_tracks c).last_tire_index =
          (c.last_tire_index + 2) % max_tire_length ∧
        (add_rear_tire_tracks c).last_tire_index < max_tire_length ∧
        ((add_rear_tire_tracks c).tire_tracks[c.last_tire_index]?).isSome ∧
        ((add_rear_tire_tracks c).tire_tracks[(c.last_tire_index + 1) %
            max_tire_length]?).isSome ∧
        (∀ j : ℕ, j ≠ c.last_tire_index →
          j ≠ (c.last_tire_index + 1) % max_tire_length →
          (add_rear_tire_tracks c).tire_tracks[j]? = c.tire_tracks[j]?))) := by
  refine ⟨by simp [Car.init], ?_⟩
  intro c hlen hidx
  constructor
  · simp only [add_front_tire_tracks]
    exact ring_write c.tire_tracks c.last_tire_index _ _ hlen hidx
  · simp only [add_rear_tire_tracks]
    exact ring_write c.tire_tracks c.last_tire_index _ _ hlen hidx

/-- Claim C9 witness: recording front tracks on the fresh car keeps the
buffer at capacity and moves the cursor from 0 to 2. -/
theorem tire_track_ring_buffer_witness :
    (add_front_tire_tracks Car.init).tire_tracks.length = max_tire_length ∧
    (add_front_tire_tracks Car.init).last_tire_index = 2 := by
  have h := (tire_track_ring_buffer.2 Car.init (by simp [Car.init])
    (by norm_num [Car.init, max_tire_length])).1
  exact ⟨h.1, by rw [h.2.1]; rfl⟩

/-- The physics step never touches the steer value; it is set only by the
steering pipeline at the top of Car.update. -/
lemma update_physics_steer (c : Car) (dt : ℝ) :
    (c.update_physics dt).steer = c.steer := by
  unfold Car.update_physics
  simp only [ite_car_steer, add_front_tire_tracks_steer,
    add_rear_tire_tracks_steer, ite_self]

/-- Claim C10: with both toggles on (the defaults) the tick stores the
safe-steer-scaled value back into the persistent steer state — after the
tick, steer equals apply_safe_steer applied to the smoothed previous
steer at the pre-tick speed.  Consequently the attenuation compounds: at
a fixed speed v, iterating the stored pipeline with zero axis (and dt = 0
so that no decay interferes) multiplies the steer value by the speed
scale factor once per tick. -/
theorem steer_stores_scaled_value :
    (∀ (c : Car) (inp : Inputs) (dt : ℝ), c.smooth_steer = true →
      c.safe_steer = true →
      (c.update inp dt).steer =
        apply_safe_steer (apply_smooth_steer c.steer (inp.right - inp.left) dt)
          c.abs_vel) ∧
    (∀ (n : ℕ) (s0 v : ℚ), 0 ≤ s0 →
      (fun s => apply_safe_steer (apply_smooth_steer s 0 0) v)^[n] s0 =
        s0 * (1 - min v 250 / 280) ^ n) := by
  constructor
  · intro c inp dt hsm hsf
    unfold Car.update
    rw [update_physics_steer]
    simp [hsm, hsf]
  · intro n
    induction n with
    | zero => intro s0 v _; simp
    | succ n ih =>
      intro s0 v h
      have hk : (0 : ℚ) ≤ 1 - min v 250 / 280 := by
        have := min_le_right v (250 : ℚ); linarith
      have hstep : apply_safe_steer (apply_smooth_steer s0 0 0) v =
          s0 * (1 - min v 250 / 280) := by
        rcases eq_or_lt_of_le h with h0 | h0
        · rw [← h0]; simp [apply_smooth_steer, apply_safe_steer]
        · have hsm0 : apply_smooth_steer s0 (0 : ℚ) 0 = s0 := by
            simp only [apply_smooth_steer]
            rw [if_neg (by simp), if_pos h0, sub_zero, max_eq_left h0.le]
          rw [hsm0, apply_safe_steer]
      rw [Function.iterate_succ_apply, hstep,
        ih (s0 * (1 - min v 250 / 280)) v (mul_nonneg h hk)]
      ring

/-- Claim C10 witness: one tick of the fresh car with the right key held,
and three compounding ticks of the stored pipeline at fixed speed 100. -/
theorem steer_stores_scaled_value_witness :
    (Car.init.update ⟨0, 1, 0, 0, 0⟩ (1 / 60)).steer =
      apply_safe_steer
        (apply_smooth_steer Car.init.steer
          ((⟨0, 1, 0, 0, 0⟩ : Inputs).right - (⟨0, 1, 0, 0, 0⟩ : Inputs).left)
          (1 / 60)) Car.init.abs_vel ∧
    (fun s => apply_safe_steer (apply_smooth_steer s 0 0) (100 : ℚ))^[3] 1 =
      1 * (1 - min 100 250 / 280) ^ 3 :=
  ⟨steer_stores_scaled_value.1 Car.init ⟨0, 1, 0, 0, 0⟩ (1 / 60) rfl rfl,
   steer_stores_scaled_value.2 3 1 100 (by norm_num)⟩

-- quick sanity checks of the embedding on concrete rationals
example : get_engine_torque (800 : ℚ) = 200 := by
  norm_num [get_engine_torque, torqueLookup, torque_curve]
example : get_engine_torque (8000 : ℚ) = 300 := by
  norm_num [get_engine_torque, torqueLookup, torque_curve]
example : get_engine_torque (8001 : ℚ) = 0 := by
  norm_num [get_engine_torque, torqueLookup, torque_curve]
example : get_engine_torque (2500 : ℚ) = 310 := by
  norm_num [get_engine_torque, torqueLookup, torque_curve]
example : apply_smooth_steer (1 : ℚ) 0 (1/4) = 3/4 := by
  norm_num [apply_smooth_steer, clamp]
example : apply_safe_steer (1 : ℚ) 300 = 3/28 := by
  norm_num [apply_safe_steer]
example : axle_weight_rear (1 : ℚ) = 4410 - 11/250 := by
  norm_num [axle_weight_rear, mass, axle_weight_ratio_rear, gravity,
    weight_transfer, cg_to_height, wheel_base, cg_to_front_axle, cg_to_rear_axle]
